import Mathlib

/-!
Verification of the ACER learning-step implementation in
`ding/policy/acer.py` (class `ACERPolicy`).

Shallow embedding conventions:
* Time-major tensors of shape `(T, B)` or `(T, B, N)` are embedded as total
  functions `ℕ → ℕ → ℚ` resp. `ℕ → ℕ → ℕ → ℚ`; the dimensions `T` (unroll
  length), `B` (batch size) and `N` (action dimension) bound the indices at
  which the pipeline reads them.
* Machine floats are embedded as exact rationals `ℚ`.
* Outputs of external collaborators (the actor/critic networks, the torch
  distribution primitives `log_prob`/`exp`/`entropy`/`sample`, `torch.log`,
  `torch.pow(·, 1/N)` and the autograd engine) are inputs of the embedding,
  carried as fields of `LearnData`.
* The helper functions imported from `ding.rl_utils` (`compute_q_retraces*`,
  `compute_q_opc`, `acer_policy_error*`, `acer_value_error*`,
  `acer_trust_region_update`) are code of the repository that is not part of
  the given sources; they are modelled from the specification text and marked
  `Modelled from the spec:` in their doc comments.
-/

namespace Acer

/-- EPS constant from acer.py line 18: `EPS = 1e-8`, exact as a rational. -/
def EPS : ℚ := 1 / 100000000

/-- Weights computed by `_reshape_data` / `_reshape_data_continuous`
(acer.py lines 494-496 and 545-547): `weights_ = 1 - data['done']`;
the intermediate `torch.ones_like` assignment is dead (immediately
overwritten by `weights = weights_`). -/
def preMask (done : ℕ → ℕ → ℚ) : ℕ → ℕ → ℚ := fun t b => 1 - done t b

/-- Mask shift from acer.py lines 366-368:
`weights_ext = torch.ones_like(weights); weights_ext[1:] = weights[0:-1];
weights = weights_ext` — row 0 becomes all ones, row `t ≥ 1` becomes the
unshifted row `t-1`. -/
def shiftMask (w : ℕ → ℕ → ℚ) : ℕ → ℕ → ℚ := fun t b =>
  if t = 0 then 1 else w (t - 1) b

/-- Scalar `total_valid = weights.sum()` from acer.py line 377, summing the
shifted mask over the `T × B` grid. -/
def totalValidOf (T B : ℕ) (w : ℕ → ℕ → ℚ) : ℚ :=
  ∑ t ∈ Finset.range T, ∑ b ∈ Finset.range B, w t b

/-- Product of a per-dimension quantity over the `N` action dimensions
(multiplicative combination across dimensions of per-dimension densities
and ratios). -/
def dimProd (N : ℕ) (f : ℕ → ℚ) : ℚ := ∏ n ∈ Finset.range N, f n

/-- Minimum of two rationals, written with an explicit comparison so that
concrete instances reduce inside the kernel. -/
def qmin (a b : ℚ) : ℚ := if a ≤ b then a else b

/-- Maximum of two rationals, written with an explicit comparison so that
concrete instances reduce inside the kernel. -/
def qmax (a b : ℚ) : ℚ := if a ≤ b then b else a

/-- Clip of the per-step combined importance ratio to the interval
`[0, c]` used inside the retrace recursion. -/
def clipTo (c x : ℚ) : ℚ := qmin c (qmax 0 x)

/-- Modelled from the spec: the shared backward recursion kernel of the
Q-retrace / Q-opc return targets (`ding.rl_utils`, not under the given
sources).  Spec §4.3: recursions run over the time axis in reverse order
`t = T-1 … 0`, each step depending on the next step's result; the target at
the bootstrap step `T` equals the bootstrap value estimate exactly; each
earlier step combines the immediate reward, the discounted (validity-
weighted) bootstrap value, and an importance-weighted correction term.
`retraceAux k` returns the pair `(tmp, qret)` at time index `T - k`, where
`qret` is the return target and `tmp` is the correction-carrying bootstrap
`cbar * (qret - q) + v` consumed by the preceding step. -/
def retraceAux (T : ℕ) (q v r w cbar : ℕ → ℕ → ℚ) (gamma : ℚ) (b : ℕ) :
    ℕ → ℚ × ℚ
  | 0 => (v T b, v T b)
  | k + 1 =>
    let idx := T - (k + 1)
    let tmpNext := (retraceAux T q v r w cbar gamma b k).1
    let qret := r idx b + gamma * w idx b * tmpNext
    (cbar idx b * (qret - q idx b) + v idx b, qret)

/-- Modelled from the spec: `compute_q_retraces_continuous(q_values, v_pred,
rewards, weights, ratio, gamma)` from `ding.rl_utils` (not under the given
sources).  The per-dimension ratio is combined multiplicatively across the
`N` action dimensions and clipped to `[0, c]` per step (spec §4.3 and §3,
importance-ratio entry); the recursion is the shared backward kernel. -/
def computeQRetracesContinuous (T N : ℕ) (q v r w : ℕ → ℕ → ℚ)
    (ratio : ℕ → ℕ → ℕ → ℚ) (c gamma : ℚ) : ℕ → ℕ → ℚ := fun t b =>
  (retraceAux T q v r w (fun u b0 => clipTo c (dimProd N (ratio u b0))) gamma b (T - t)).2

/-- Modelled from the spec: `compute_q_opc(q_values, v_pred, rewards, actions,
weights, gamma)` from `ding.rl_utils` (not under the given sources).  Spec
§4.3: a variant return target using uncapped action-value bootstrapping —
the same backward kernel with the ratio coefficient replaced by 1; the
`actions` argument selects the action-value inputs and is carried for
signature fidelity. -/
def computeQOpc (T : ℕ) (q v r : ℕ → ℕ → ℚ) (_acts : ℕ → ℕ → ℕ → ℚ)
    (w : ℕ → ℕ → ℚ) (gamma : ℚ) : ℕ → ℕ → ℚ := fun t b =>
  (retraceAux T q v r w (fun _ _ => 1) gamma b (T - t)).2

/-- Modelled from the spec: `acer_policy_error_continuous(q_values_prime,
q_opc, v_pred, target_pi, target_pi_prime, ratio, ratio_prime, c_clip_ratio)`
from `ding.rl_utils` (not under the given sources).  Spec §4.4: the actor loss
is a policy-gradient term using the clipped importance ratio and the opc
advantage, plus an auxiliary behavior-cloning term; the bc term uses the
re-sampled-action quantities (`ratio_prime`, `target_pi_prime`,
`q_values_prime`).  Per-dimension probabilities and ratios are combined
multiplicatively across the `N` action dimensions; `qlog` models the torch
logarithm.  Returns the pair (policy-gradient loss, bc loss), each a `(T,B)`
grid. -/
def acerPolicyErrorContinuous (N : ℕ) (qPrime qOpc vPred : ℕ → ℕ → ℚ)
    (targetPi targetPiPrime ratio ratioPrime : ℕ → ℕ → ℕ → ℚ)
    (qlog : ℚ → ℚ) (c : ℚ) : (ℕ → ℕ → ℚ) × (ℕ → ℕ → ℚ) :=
  (fun t b =>
    -(qmin c (dimProd N (fun n => ratio t b n))) * (qOpc t b - vPred t b) *
      ∑ n ∈ Finset.range N, qlog (targetPi t b n),
   fun t b =>
    -(qmax 0 (1 - c / dimProd N (fun n => ratioPrime t b n))) *
      (qPrime t b - vPred t b) *
      ∑ n ∈ Finset.range N, qlog (targetPiPrime t b n))

/-- Modelled from the spec: `acer_value_error_continuous(q_values, v_pred,
q_retraces, ratio)` from `ding.rl_utils` (not under the given sources).  Spec
§4.5: a regression loss of the action-value estimate against the retrace
target (mean-squared style), with a ratio-capped value-regression component
(the signature carries `v_pred` and `ratio`). -/
def acerValueErrorContinuous (N : ℕ) (q vPred qRet : ℕ → ℕ → ℚ)
    (ratio : ℕ → ℕ → ℕ → ℚ) : ℕ → ℕ → ℚ := fun t b =>
  (qRet t b - q t b) ^ 2 / 2 +
    qmin 1 (dimProd N (fun n => ratio t b n)) * (qRet t b - vPred t b) ^ 2 / 2

/-- Modelled from the spec: `acer_trust_region_update(actor_gradients,
target_pi, avg_pi, trust_region_value)` from `ding.rl_utils` (not under the
given sources).  Spec §4.4: the raw gradient with respect to the target-policy
distribution output is reprojected so that the update stays within a bounded
KL-divergence ball around the average policy, scaled by the trust-region
radius `delta`: the component of the gradient along the KL direction `k`
exceeding `delta` is removed. -/
def acerTrustRegionUpdate (N : ℕ) (g targetPi avgPi : ℕ → ℕ → ℕ → ℚ)
    (delta : ℚ) : ℕ → ℕ → ℕ → ℚ := fun t b n =>
  let k : ℕ → ℚ := fun m => -(avgPi t b m) / (targetPi t b m + EPS)
  let kg := ∑ m ∈ Finset.range N, k m * g t b m
  let kk := ∑ m ∈ Finset.range N, k m * k m
  g t b n - qmax 0 ((kg - delta) / (kk + EPS)) * k n

/-- Configuration slice of `ACERPolicy` read by `_forward_learn`
(`self._cfg.model.continuous_action_space`, `self._unroll_len`,
`self._action_shape`, `self._gamma`, `self._c_clip_ratio`,
`self._entropy_weight`, `self._use_trust_region`, `self._trust_region_value`
and the two optimizer learning rates). -/
structure LearnCfg where
  continuousActionSpace : Bool
  unrollLen : ℕ
  actionShape : ℕ
  gamma : ℚ
  cClip : ℚ
  entropyWeight : ℚ
  useTrustRegion : Bool
  trustRegionValue : ℚ
  learningRateActor : ℚ
  learningRateCritic : ℚ

/-- Inputs of one `_forward_learn` call: the preprocessed batch together with
the outputs of the external collaborators consumed inside the step (actor and
critic network forward passes, torch distribution primitives, the sampled
actions drawn during the step, and the autograd engine's raw gradient).
Time-major tensors are total functions read at indices below `T` (or `T+1`
for the bootstrap-extended tensors), `B` and `N`. -/
structure LearnData where
  /-- Batch size `B` (the `-1` dimension of the reshapes). -/
  B : ℕ
  /-- Actor output on `obs_plus_1` (line 243), continuous case: mean,
  shape `(T+1, B, N)`. -/
  targetMu : ℕ → ℕ → ℕ → ℚ
  /-- Actor output on `obs_plus_1` (line 243), continuous case: std. -/
  targetSigma : ℕ → ℕ → ℕ → ℚ
  /-- Stored behaviour-policy mean `data['logit_mu']`, shape `(T, B, N)`. -/
  behaviourMu : ℕ → ℕ → ℕ → ℚ
  /-- Stored behaviour-policy std `data['logit_sigma']`. -/
  behaviourSigma : ℕ → ℕ → ℕ → ℚ
  /-- Target-network actor output (line 244), continuous case: mean. -/
  avgMu : ℕ → ℕ → ℕ → ℚ
  /-- Target-network actor output (line 244), continuous case: std. -/
  avgSigma : ℕ → ℕ → ℕ → ℚ
  /-- Realized actions `data['action']`, shape `(T, B, N)`. -/
  actions : ℕ → ℕ → ℕ → ℚ
  /-- Rewards `data['reward']`, shape `(T, B)`. -/
  rewards : ℕ → ℕ → ℚ
  /-- Done flags `data['done']` as floats, shape `(T, B)`. -/
  done : ℕ → ℕ → ℚ
  /-- Bootstrap action sampled from the target distribution at the last step
  (line 262), shape `(B, N)`. -/
  tarActGen : ℕ → ℕ → ℚ
  /-- Bootstrap action sampled from the average distribution at the last step
  (line 263), shape `(B, N)`. -/
  avgActGen : ℕ → ℕ → ℚ
  /-- Freshly sampled action sequence `action_prime` (line 281),
  shape `(T+1, B, N)`. -/
  actionPrime : ℕ → ℕ → ℕ → ℚ
  /-- Critic q-output on the realized-action sequence (lines 301-306),
  shape `(T+1, B)` (last tensor dimension is 1). -/
  qValues : ℕ → ℕ → ℚ
  /-- Critic v-output (lines 308-310), shape `(T+1, B)`. -/
  vValues : ℕ → ℕ → ℚ
  /-- Critic q-output on `action_prime` (lines 354-359), shape `(T+1, B)`. -/
  qValuesPrime : ℕ → ℕ → ℚ
  /-- Critic q-output recomputed after the actor step (lines 412-417),
  shape `(T+1, B)`. -/
  qValuesRecomputed : ℕ → ℕ → ℚ
  /-- Raw gradient of the negated total actor loss with respect to the
  target-policy distribution output, as produced by `torch.autograd.grad`
  (line 400), shape `(T, B, N)`. -/
  autogradGrad : ℕ → ℕ → ℕ → ℚ
  /-- Models `torch.exp(Normal(mu, sigma).log_prob(x))`: the Gaussian density
  evaluated elementwise, a torch primitive external to the repository. -/
  normalPdf : ℚ → ℚ → ℚ → ℚ
  /-- Models `Normal(mu, sigma).entropy()` elementwise; depends only on the
  standard deviation. -/
  normalEntropy : ℚ → ℚ
  /-- Models `torch.pow(x, 1/N)`, the per-dimension normalization root
  applied to the importance ratio (line 340). -/
  nthRoot : ℚ → ℚ
  /-- Models `torch.log`. -/
  qlog : ℚ → ℚ
  /-- Models `torch.exp` (used by the discrete softmax). -/
  qexp : ℚ → ℚ
  /-- Discrete case: current-model logits reshaped to `(T+1, B, N)`
  (lines 484-486). -/
  dTargetLogit : ℕ → ℕ → ℕ → ℚ
  /-- Discrete case: stored behaviour logits, shape `(T, B, N)` (line 487). -/
  dBehaviourLogit : ℕ → ℕ → ℕ → ℚ
  /-- Discrete case: target-network logits, shape `(T+1, B, N)`
  (lines 488-490). -/
  dAvgLogit : ℕ → ℕ → ℕ → ℚ
  /-- Discrete case: critic q-output, shape `(T+1, B, N)` (lines 319-323). -/
  dQValues : ℕ → ℕ → ℕ → ℚ
  /-- Discrete case: realized action indices, shape `(T, B)`. -/
  dActions : ℕ → ℕ → ℕ

/-- Action sequence extended by the sampled bootstrap action:
`target_action_plus_1 = torch.cat((data['action'], tar_act_gen), dim=0)`
(line 268). -/
def contTargetActionPlus1 (cfg : LearnCfg) (d : LearnData) :
    ℕ → ℕ → ℕ → ℚ := fun t b n =>
  if t < cfg.unrollLen then d.actions t b n else d.tarActGen b n

/-- Action sequence extended by the average-distribution bootstrap action:
`avg_action_plus_1 = torch.cat((data['action'], avg_act_gen), dim=0)`
(line 269). -/
def contAvgActionPlus1 (cfg : LearnCfg) (d : LearnData) :
    ℕ → ℕ → ℕ → ℚ := fun t b n =>
  if t < cfg.unrollLen then d.actions t b n else d.avgActGen b n

/-- `target_pi = torch.exp(target_dist.log_prob(target_action_plus_1))`
(lines 271-272), shape `(T+1, B, N)`. -/
def contTargetPi (cfg : LearnCfg) (d : LearnData) : ℕ → ℕ → ℕ → ℚ :=
  fun t b n =>
  d.normalPdf (d.targetMu t b n) (d.targetSigma t b n)
    (contTargetActionPlus1 cfg d t b n)

/-- `avg_pi = torch.exp(avg_dist.log_prob(avg_action_plus_1))`
(lines 274-275), shape `(T+1, B, N)`. -/
def contAvgPi (cfg : LearnCfg) (d : LearnData) : ℕ → ℕ → ℕ → ℚ :=
  fun t b n =>
  d.normalPdf (d.avgMu t b n) (d.avgSigma t b n) (contAvgActionPlus1 cfg d t b n)

/-- `behaviour_pi = torch.exp(behaviour_dist.log_prob(data['action']))`
(lines 277-278), shape `(T, B, N)`. -/
def contBehaviourPi (d : LearnData) : ℕ → ℕ → ℕ → ℚ := fun t b n =>
  d.normalPdf (d.behaviourMu t b n) (d.behaviourSigma t b n) (d.actions t b n)

/-- `target_pi_prime = torch.exp(target_dist.log_prob(action_prime))`
(lines 282-283), shape `(T+1, B, N)`. -/
def contTargetPiPrime (d : LearnData) : ℕ → ℕ → ℕ → ℚ := fun t b n =>
  d.normalPdf (d.targetMu t b n) (d.targetSigma t b n) (d.actionPrime t b n)

/-- `behaviour_pi_prime = torch.exp(behaviour_dist.log_prob(action_prime[0:-1]))`
(lines 285-286), shape `(T, B, N)`. -/
def contBehaviourPiPrime (d : LearnData) : ℕ → ℕ → ℕ → ℚ := fun t b n =>
  d.normalPdf (d.behaviourMu t b n) (d.behaviourSigma t b n) (d.actionPrime t b n)

/-- `ratio = target_pi[0:-1, ...] / (behaviour_pi + EPS)` (line 337),
elementwise, shape `(T, B, N)`; the pipeline reads it at `t < T` only. -/
def contRatio (cfg : LearnCfg) (d : LearnData) : ℕ → ℕ → ℕ → ℚ :=
  fun t b n => contTargetPi cfg d t b n / (contBehaviourPi d t b n + EPS)

/-- `ratio_dim = torch.pow(ratio, 1/self._action_shape)` (line 340): the
dimension-normalized ratio, elementwise `N`-th root of the ratio. -/
def contRatioDim (cfg : LearnCfg) (d : LearnData) : ℕ → ℕ → ℕ → ℚ :=
  fun t b n => d.nthRoot (contRatio cfg d t b n)

/-- `ratio_prime = target_pi_prime[0:-1, ...] / (behaviour_pi_prime + EPS)`
(line 341): the importance ratio at the freshly sampled action. -/
def contRatioPrime (d : LearnData) : ℕ → ℕ → ℕ → ℚ := fun t b n =>
  contTargetPiPrime d t b n / (contBehaviourPiPrime d t b n + EPS)

/-- Retrace targets of the continuous branch (line 344): the call
`compute_q_retraces_continuous(q_values, v_pred, rewards, weights, ratio_dim,
self._gamma)`, where at this point `weights` is the pre-shift mask `1 - done`
returned by `_reshape_data_continuous` and `v_pred = v_values` (line 335). -/
def contQRetraces (cfg : LearnCfg) (d : LearnData) : ℕ → ℕ → ℚ :=
  computeQRetracesContinuous cfg.unrollLen cfg.actionShape d.qValues d.vValues
    d.rewards (preMask d.done) (contRatioDim cfg d) cfg.cClip cfg.gamma

/-- Q-opc targets of the continuous branch (line 347): the call
`compute_q_opc(q_values, v_pred, rewards, actions, weights, self._gamma)`
with the pre-shift mask. -/
def contQOpc (cfg : LearnCfg) (d : LearnData) : ℕ → ℕ → ℚ :=
  computeQOpc cfg.unrollLen d.qValues d.vValues d.rewards d.actions
    (preMask d.done) cfg.gamma

/-- The validity mask applied to every loss reduction: the pre-shift mask
after the right shift of lines 366-368. -/
def contLossMask (d : LearnData) : ℕ → ℕ → ℚ := shiftMask (preMask d.done)

/-- `total_valid = weights.sum()` (line 377) for the continuous branch. -/
def contTotalValid (cfg : LearnCfg) (d : LearnData) : ℚ :=
  totalValidOf cfg.unrollLen d.B (contLossMask d)

/-- The `(actor_loss, bc_loss)` pair returned by the call
`acer_policy_error_continuous(q_values_prime, q_opc, v_pred, target_pi,
target_pi_prime, ratio, ratio_prime, self._c_clip_ratio)` (lines 382-384),
before the mask multiplication. -/
def contActorBcRaw (cfg : LearnCfg) (d : LearnData) :
    (ℕ → ℕ → ℚ) × (ℕ → ℕ → ℚ) :=
  acerPolicyErrorContinuous cfg.actionShape d.qValuesPrime (contQOpc cfg d)
    d.vValues (contTargetPi cfg d) (contTargetPiPrime d) (contRatio cfg d)
    (contRatioPrime d) d.qlog cfg.cClip

/-- `actor_loss = actor_loss * weights.unsqueeze(-1)` (line 392) with the
shifted mask. -/
def contActorLossM (cfg : LearnCfg) (d : LearnData) : ℕ → ℕ → ℚ :=
  fun t b => (contActorBcRaw cfg d).1 t b * contLossMask d t b

/-- `bc_loss = bc_loss * weights.unsqueeze(-1)` (line 393) with the shifted
mask. -/
def contBcLossM (cfg : LearnCfg) (d : LearnData) : ℕ → ℕ → ℚ :=
  fun t b => (contActorBcRaw cfg d).2 t b * contLossMask d t b

/-- `entropy_loss = dist_new.entropy() * weights.unsqueeze(-1)` (line 396)
with `dist_new = Normal(target_mu[:-1], target_sigma[:-1])` (line 385):
elementwise entropy of shape `(T, B, N)` times the shifted mask. -/
def contEntropyM (d : LearnData) : ℕ → ℕ → ℕ → ℚ := fun t b n =>
  d.normalEntropy (d.targetSigma t b n) * contLossMask d t b

/-- `total_actor_loss = (actor_loss + bc_loss + entropy_weight * entropy_loss)
.sum() / total_valid` (line 398).  The `(T,B,1)`-shaped actor/bc terms
broadcast against the `(T,B,N)`-shaped entropy term, so the sum ranges over
all three indices. -/
def contTotalActorLoss (cfg : LearnCfg) (d : LearnData) : ℚ :=
  (∑ t ∈ Finset.range cfg.unrollLen, ∑ b ∈ Finset.range d.B,
    ∑ n ∈ Finset.range cfg.actionShape,
      (contActorLossM cfg d t b + contBcLossM cfg d t b +
        cfg.entropyWeight * contEntropyM d t b n)) / contTotalValid cfg d

/-- The gradient backpropagated into the actor network through `target_pi`
(lines 400-404): the raw autograd gradient, trust-region-projected exactly
when the `trust_region` flag is enabled. -/
def contAppliedGrad (cfg : LearnCfg) (d : LearnData) : ℕ → ℕ → ℕ → ℚ :=
  if cfg.useTrustRegion then
    acerTrustRegionUpdate cfg.actionShape d.autogradGrad (contTargetPi cfg d)
      (contAvgPi cfg d) cfg.trustRegionValue
  else d.autogradGrad

/-- Per-step critic regression error of the continuous branch: the call
`acer_value_error_continuous(q_values, v_pred, q_retraces, ratio)`
(lines 423-424) on the post-actor-step recomputed critic output. -/
def contCriticErr (cfg : LearnCfg) (d : LearnData) : ℕ → ℕ → ℚ :=
  acerValueErrorContinuous cfg.actionShape d.qValuesRecomputed d.vValues
    (contQRetraces cfg d) (contRatio cfg d)

/-- `critic_loss = (acer_value_error_continuous(...) * weights.unsqueeze(-1))
.sum() / total_valid` (lines 423-424). -/
def contCriticLoss (cfg : LearnCfg) (d : LearnData) : ℚ :=
  (∑ t ∈ Finset.range cfg.unrollLen, ∑ b ∈ Finset.range d.B,
    contCriticErr cfg d t b * contLossMask d t b) / contTotalValid cfg d

/-- `kl_div = (avg_pi * ((avg_pi + EPS).log() - (target_pi + EPS).log()))
.sum(-1) * weights, summed and divided by total_valid` (lines 444-445). -/
def contKlDiv (cfg : LearnCfg) (d : LearnData) : ℚ :=
  (∑ t ∈ Finset.range cfg.unrollLen, ∑ b ∈ Finset.range d.B,
    (∑ n ∈ Finset.range cfg.actionShape,
      contAvgPi cfg d t b n *
        (d.qlog (contAvgPi cfg d t b n + EPS) -
          d.qlog (contTargetPi cfg d t b n + EPS))) * contLossMask d t b) /
    contTotalValid cfg d

/-- The metrics dictionary returned on success (lines 447-456), as an ordered
association list of scalar values. -/
def contMetrics (cfg : LearnCfg) (d : LearnData) : List (String × ℚ) :=
  [("cur_actor_lr", cfg.learningRateActor),
   ("cur_critic_lr", cfg.learningRateCritic),
   ("actor_loss",
     (∑ t ∈ Finset.range cfg.unrollLen, ∑ b ∈ Finset.range d.B,
       contActorLossM cfg d t b) / contTotalValid cfg d),
   ("bc_loss",
     (∑ t ∈ Finset.range cfg.unrollLen, ∑ b ∈ Finset.range d.B,
       contBcLossM cfg d t b) / contTotalValid cfg d),
   ("entropy_loss",
     (∑ t ∈ Finset.range cfg.unrollLen, ∑ b ∈ Finset.range d.B,
       ∑ n ∈ Finset.range cfg.actionShape,
         contEntropyM d t b n) / contTotalValid cfg d),
   ("total_actor_loss", contTotalActorLoss cfg d),
   ("critic_loss", contCriticLoss cfg d),
   ("kl_div", contKlDiv cfg d)]

/-- Discrete softmax over logits (lines 326-330): `torch.softmax(z, dim=-1)`,
with `qexp` modelling `torch.exp`. -/
def softmaxQ (qexp : ℚ → ℚ) (N : ℕ) (z : ℕ → ℚ) (n : ℕ) : ℚ :=
  qexp (z n) / ∑ m ∈ Finset.range N, qexp (z m)

/-- Discrete `target_pi = torch.softmax(target_logit, dim=-1)` (line 326);
computed by the discrete branch before the step aborts at line 335. -/
def discTargetPi (cfg : LearnCfg) (d : LearnData) : ℕ → ℕ → ℕ → ℚ :=
  fun t b n => softmaxQ d.qexp cfg.actionShape (fun m => d.dTargetLogit t b m) n

/-- Discrete `behaviour_pi = torch.softmax(behaviour_logit, dim=-1)`
(line 328). -/
def discBehaviourPi (cfg : LearnCfg) (d : LearnData) : ℕ → ℕ → ℕ → ℚ :=
  fun t b n =>
  softmaxQ d.qexp cfg.actionShape (fun m => d.dBehaviourLogit t b m) n

/-- Discrete `avg_pi = torch.softmax(avg_logit, dim=-1)` (line 330). -/
def discAvgPi (cfg : LearnCfg) (d : LearnData) : ℕ → ℕ → ℕ → ℚ :=
  fun t b n => softmaxQ d.qexp cfg.actionShape (fun m => d.dAvgLogit t b m) n

/-- Errors that terminate `_forward_learn` before it returns metrics.
`unboundLocalVValues` models the Python `UnboundLocalError` raised at line
335 (`v_pred = v_values`): in the discrete branch the local `v_values` is
never assigned (it is assigned only at lines 308-310 inside the
continuous branch), so reading it aborts the step. -/
inductive LearnErr where
  | unboundLocalVValues
  deriving DecidableEq

/-- Which optimizer `step()` calls completed during the learning step. -/
structure OptFlags where
  actorStepped : Bool
  criticStepped : Bool
  deriving DecidableEq

/-- Result of a completed learning step: the metrics dictionary and the
gradient that was backpropagated into the actor network. -/
structure StepOut where
  metrics : List (String × ℚ)
  appliedActorGrad : ℕ → ℕ → ℕ → ℚ

/-- The completed continuous-branch step. -/
def contStep (cfg : LearnCfg) (d : LearnData) : StepOut :=
  { metrics := contMetrics cfg d, appliedActorGrad := contAppliedGrad cfg d }

/-- Control-flow skeleton of `_forward_learn` (lines 241-456): the continuous
branch runs to completion, performing the actor optimizer step (line 405) and
then the critic optimizer step (line 431) before returning the metrics; the
discrete branch computes its reshapes and softmax distributions (lines
313-330, embedded as `discTargetPi`/`discBehaviourPi`/`discAvgPi`) and then
aborts with an `UnboundLocalError` at line 335 (`v_pred = v_values`), before
either optimizer is touched. -/
def forwardLearn (cfg : LearnCfg) (d : LearnData) :
    Except LearnErr StepOut × OptFlags :=
  if cfg.continuousActionSpace then
    (Except.ok (contStep cfg d), { actorStepped := true, criticStepped := true })
  else
    (Except.error LearnErr.unboundLocalVValues,
     { actorStepped := false, criticStepped := false })

/-- Boolean success test on the step outcome. -/
def stepIsOk (e : Except LearnErr StepOut) : Bool :=
  match e with
  | Except.ok _ => true
  | Except.error _ => false

/-- Persistent learn-mode state of the policy: the online model, the
momentum-averaged target model, the two optimizers of `_init_learn`, and the
auxiliary `_optimizer_critic_v` (line 131), which `_forward_learn` never
reads.  Component states are embedded as parameter lists. -/
structure LearnPersistState where
  model : List ℚ
  targetModel : List ℚ
  actorOptimizer : List ℚ
  criticOptimizer : List ℚ
  criticOptimizerV : List ℚ
  deriving DecidableEq

/-- The saved checkpoint: the four entries written by `_state_dict_learn`
(lines 557-562). -/
structure SavedDict where
  model : List ℚ
  targetModel : List ℚ
  actorOptimizer : List ℚ
  criticOptimizer : List ℚ
  deriving DecidableEq

/-- `_state_dict_learn` (lines 550-562): serializes the online model, target
model, actor optimizer and critic optimizer. -/
def stateDictLearn (s : LearnPersistState) : SavedDict :=
  { model := s.model
    targetModel := s.targetModel
    actorOptimizer := s.actorOptimizer
    criticOptimizer := s.criticOptimizer }

/-- `_load_state_dict_learn` (lines 564-578): loads the four saved entries
into the corresponding components, leaving everything else unchanged. -/
def loadStateDictLearn (s : LearnPersistState) (sd : SavedDict) :
    LearnPersistState :=
  { s with
    model := sd.model
    targetModel := sd.targetModel
    actorOptimizer := sd.actorOptimizer
    criticOptimizer := sd.criticOptimizer }

/-- Concrete continuous-branch configuration used by the witnesses: the
default hyperparameters of the `ACERPolicy.config` dict (`discount_factor
0.9`, `c_clip_ratio 10`, `entropy_weight 0.0001`, learning rates `0.0005`,
`trust_region` enabled with radius `1.0`), with a one-step, one-dimensional
unroll. -/
def wCfg : LearnCfg :=
  { continuousActionSpace := true
    unrollLen := 1
    actionShape := 1
    gamma := 9 / 10
    cClip := 10
    entropyWeight := 1 / 10000
    useTrustRegion := true
    trustRegionValue := 1
    learningRateActor := 1 / 2000
    learningRateCritic := 1 / 2000 }

/-- The witness configuration with the trust-region flag disabled. -/
def wCfgNoTR : LearnCfg := { wCfg with useTrustRegion := false }

/-- Concrete batch data used by the witnesses: batch size 1, standard-normal
distribution parameters, all actions, rewards and dones zero, a constant
unit density, zero entropy/log models, and the identity as the
dimension-normalization root (exact for `N = 1` since `x ** (1/1) = x`). -/
def wData : LearnData :=
  { B := 1
    targetMu := fun _ _ _ => 0
    targetSigma := fun _ _ _ => 1
    behaviourMu := fun _ _ _ => 0
    behaviourSigma := fun _ _ _ => 1
    avgMu := fun _ _ _ => 0
    avgSigma := fun _ _ _ => 1
    actions := fun _ _ _ => 0
    rewards := fun _ _ => 0
    done := fun _ _ => 0
    tarActGen := fun _ _ => 0
    avgActGen := fun _ _ => 0
    actionPrime := fun _ _ _ => 0
    qValues := fun _ _ => 0
    vValues := fun _ _ => 0
    qValuesPrime := fun _ _ => 0
    qValuesRecomputed := fun _ _ => 0
    autogradGrad := fun _ _ _ => 0
    normalPdf := fun _ _ _ => 1
    normalEntropy := fun _ => 0
    nthRoot := fun x => x
    qlog := fun _ => 0
    qexp := fun _ => 1
    dTargetLogit := fun _ _ _ => 0
    dBehaviourLogit := fun _ _ _ => 0
    dAvgLogit := fun _ _ _ => 0
    dQValues := fun _ _ _ => 0
    dActions := fun _ _ => 0 }

/-- The discrete configuration of claim C1's end-to-end scenario: discrete
action space, unroll length 4, action dimension 3, default
hyperparameters. -/
def c1Cfg : LearnCfg :=
  { wCfg with
    continuousActionSpace := false
    unrollLen := 4
    actionShape := 3 }

/-- The batch of claim C1's end-to-end scenario: batch size 2, all rewards
and done flags zero, and the stored behaviour logits identical to the
current model's logits (so the importance ratio would be 1 at every step). -/
def c1Data : LearnData := { wData with B := 2 }

/-- Continuous configuration for the claim C2 counterexample: unroll length
2 and discount `1/2`. -/
def cw2Cfg : LearnCfg := { wCfg with unrollLen := 2, gamma := 1 / 2 }

/-- Batch for the claim C2 counterexample: a `done` flag at step 0, zero
rewards, zero q-estimates and unit value estimates, so the position of the
mask inside the retrace recursion is observable in the targets. -/
def cw2Data : LearnData :=
  { wData with
    done := fun t _ => if t = 0 then 1 else 0
    vValues := fun _ _ => 1 }

/-- Claim C1 (refuted by the code, which contradicts its own interface
documentation): in the claim's discrete scenario — unroll length 4, batch
size 2, discrete action dimension 3, all rewards and dones zero, behaviour
policy equal to the target policy — the discrete learning step never reaches
the retrace computation: line 335 (`v_pred = v_values`) reads the local
`v_values`, which is assigned only inside the continuous branch (lines
308-310), so the step aborts with an `UnboundLocalError` before either
optimizer step, computing no retrace targets and no actor loss. -/
theorem C1_discrete_scenario_aborts :
    forwardLearn c1Cfg c1Data =
      (Except.error LearnErr.unboundLocalVValues,
       { actorStepped := false, criticStepped := false }) := by
  simp [forwardLearn, c1Cfg, wCfg]

/-- Claim C2 counterexample: at a concrete two-step batch with a `done` flag
at step 0, the retrace targets computed by the learning step (which passes
the pre-shift mask `1 - done` to `compute_q_retraces_continuous` at line 344,
before the shift of lines 366-368 happens) differ from the retrace targets
that the shifted mask would produce — so the mask applied to the Q-retrace
computation is not the right-shifted one claimed. -/
theorem C2_counterexample :
    contQRetraces cw2Cfg cw2Data 0 0 ≠
      computeQRetracesContinuous cw2Cfg.unrollLen cw2Cfg.actionShape
        cw2Data.qValues cw2Data.vValues cw2Data.rewards
        (shiftMask (preMask cw2Data.done)) (contRatioDim cw2Cfg cw2Data)
        cw2Cfg.cClip cw2Cfg.gamma 0 0 := by
  norm_num [contQRetraces, computeQRetracesContinuous, retraceAux, clipTo,
    qmin, qmax, dimProd, preMask, shiftMask, cw2Cfg, cw2Data, wCfg, wData,
    contRatioDim, contRatio, contTargetPi, contBehaviourPi,
    contTargetActionPlus1, EPS]

/-- Claim C2 as amended: the right-shifted mask (first row all ones, row
`t+1` equal to `1 - done[t]`, so a done flag at step `t` zeros step `t+1`'s
contribution) is the mask applied to the actor/bc loss reductions, while the
Q-retrace and Q-opc computations receive the pre-shift mask `1 - done`. -/
theorem C2_mask_shift_amended (cfg : LearnCfg) (d : LearnData) :
    (∀ b, contLossMask d 0 b = 1) ∧
    (∀ t b, contLossMask d (t + 1) b = 1 - d.done t b) ∧
    contQRetraces cfg d =
      computeQRetracesContinuous cfg.unrollLen cfg.actionShape d.qValues
        d.vValues d.rewards (preMask d.done) (contRatioDim cfg d) cfg.cClip
        cfg.gamma ∧
    contQOpc cfg d =
      computeQOpc cfg.unrollLen d.qValues d.vValues d.rewards d.actions
        (preMask d.done) cfg.gamma ∧
    (∀ t b, contActorLossM cfg d t b =
      (contActorBcRaw cfg d).1 t b * contLossMask d t b) ∧
    (∀ t b, contBcLossM cfg d t b =
      (contActorBcRaw cfg d).2 t b * contLossMask d t b) := by
  refine ⟨fun b => ?_, fun t b => ?_, rfl, rfl, fun t b => rfl, fun t b => rfl⟩
  · simp [contLossMask, shiftMask]
  · simp [contLossMask, shiftMask, preMask]

/-- Claim C4: the learning step is atomic — on the successful (continuous)
path both the actor optimizer step (line 405) and the critic optimizer step
(line 431) are applied, and when the step aborts with an error (the discrete
path's line-335 failure, which precedes both optimizer calls) neither is
applied. -/
theorem C4_step_atomicity (cfg : LearnCfg) (d : LearnData) :
    (forwardLearn cfg d).2 =
      (if stepIsOk (forwardLearn cfg d).1 then
        ({ actorStepped := true, criticStepped := true } : OptFlags)
      else { actorStepped := false, criticStepped := false }) := by
  by_cases h : cfg.continuousActionSpace <;> simp [forwardLearn, stepIsOk, h]

/-- Claim C5: for every batch of done flags, (i) if all done flags are zero
then the shifted validity weights used for the loss reductions are all ones,
and (ii) unconditionally — whatever the done values — the first time step's
weight is 1 (a done flag never retroactively zeros an earlier or its own
step). -/
theorem C5_validity_weights (done : ℕ → ℕ → ℚ) (T B : ℕ) :
    ((∀ t, t < T → ∀ b, b < B → done t b = 0) →
      ∀ t, t < T → ∀ b, b < B → shiftMask (preMask done) t b = 1) ∧
    (∀ b, shiftMask (preMask done) 0 b = 1) := by
  constructor
  · intro h t ht b hb
    by_cases h0 : t = 0
    · simp [shiftMask, h0]
    · have ht' : t - 1 < T := lt_of_le_of_lt (Nat.sub_le t 1) ht
      simp [shiftMask, preMask, h0, h (t - 1) ht' b hb]
  · intro b
    simp [shiftMask]

/-- Witness for claim C5, at `T = B = 2`: the all-ones conclusion at a
concrete all-zero-done batch, and the unconditional first-row conclusion at
a batch whose done flags are all 1 — a nonzero-done batch, exercising the
`regardless of done values` half of the claim. -/
theorem C5_validity_weights_witness :
    shiftMask (preMask fun _ _ => (0 : ℚ)) 1 0 = 1 ∧
    shiftMask (preMask fun _ _ => (1 : ℚ)) 0 0 = 1 :=
  ⟨(C5_validity_weights (fun _ _ => (0 : ℚ)) 2 2).1 (fun _ _ _ _ => rfl) 1
      (by norm_num) 0 (by norm_num),
   (C5_validity_weights (fun _ _ => (1 : ℚ)) 2 2).2 0⟩

/-- Claim C6: with the trust-region flag disabled, the gradient
backpropagated through the target-policy distribution output (line 404) is
exactly the raw autograd gradient of the negated total actor loss (line 400),
with no projection applied. -/
theorem C6_trust_region_disabled (cfg : LearnCfg) (d : LearnData)
    (h : cfg.useTrustRegion = false) :
    contAppliedGrad cfg d = d.autogradGrad := by
  simp [contAppliedGrad, h]

/-- Witness for claim C6 at the concrete configuration with the flag off. -/
theorem C6_trust_region_disabled_witness :
    contAppliedGrad wCfgNoTR wData = wData.autogradGrad :=
  C6_trust_region_disabled wCfgNoTR wData rfl

/-- Claim C7: the importance ratio is `target_pi / (behaviour_pi + EPS)`
elementwise; the dimension-normalized ratio fed into the retrace recursion
is its elementwise `N`-th root (`ratio ** (1/N)`, line 340), and the second
ratio `ratio_prime` computed for the freshly sampled action enters only the
continuous actor-loss call, while the retrace and critic-error calls receive
`ratio_dim` and `ratio` respectively. -/
theorem C7_importance_ratio (cfg : LearnCfg) (d : LearnData)
    (hroot : ∀ x : ℚ, 0 ≤ x → d.nthRoot x ^ cfg.actionShape = x)
    (hpdf : ∀ m s x : ℚ, 0 ≤ d.normalPdf m s x) :
    (∀ t b n, contRatio cfg d t b n =
      contTargetPi cfg d t b n / (contBehaviourPi d t b n + EPS)) ∧
    (∀ t b n, contRatioDim cfg d t b n ^ cfg.actionShape =
      contRatio cfg d t b n) ∧
    contQRetraces cfg d =
      computeQRetracesContinuous cfg.unrollLen cfg.actionShape d.qValues
        d.vValues d.rewards (preMask d.done) (contRatioDim cfg d) cfg.cClip
        cfg.gamma ∧
    (∀ t b n, contRatioPrime d t b n =
      contTargetPiPrime d t b n / (contBehaviourPiPrime d t b n + EPS)) ∧
    contActorBcRaw cfg d =
      acerPolicyErrorContinuous cfg.actionShape d.qValuesPrime (contQOpc cfg d)
        d.vValues (contTargetPi cfg d) (contTargetPiPrime d) (contRatio cfg d)
        (contRatioPrime d) d.qlog cfg.cClip ∧
    contCriticErr cfg d =
      acerValueErrorContinuous cfg.actionShape d.qValuesRecomputed d.vValues
        (contQRetraces cfg d) (contRatio cfg d) := by
  refine ⟨fun t b n => rfl, fun t b n => ?_, rfl, fun t b n => rfl, rfl, rfl⟩
  have h1 : 0 ≤ contTargetPi cfg d t b n := hpdf _ _ _
  have h2 : 0 ≤ contBehaviourPi d t b n := hpdf _ _ _
  have h3 : (0 : ℚ) < EPS := by norm_num [EPS]
  exact hroot _ (div_nonneg h1 (by linarith))

/-- Witness for claim C7 at the concrete one-dimensional batch, where the
normalization root is the identity. -/
theorem C7_importance_ratio_witness :
    contRatioDim wCfg wData 0 0 0 ^ wCfg.actionShape =
      contRatio wCfg wData 0 0 0 :=
  (C7_importance_ratio wCfg wData (fun x _ => pow_one x)
    (fun _ _ _ => by norm_num [wData])).2.1 0 0 0

/-- Claim C8: `state_dict` followed by `load_state_dict` on a fresh policy
restores all four persisted components (online model, target model, actor
optimizer, critic optimizer), so any learning-step computation that is a
function of the persisted state (plus the batch and the seed, folded into
`step`) produces identical outputs on the restored policy. -/
theorem C8_state_dict_round_trip (orig fresh : LearnPersistState)
    (step : SavedDict → List (String × ℚ)) :
    stateDictLearn (loadStateDictLearn fresh (stateDictLearn orig)) =
      stateDictLearn orig ∧
    (loadStateDictLearn fresh (stateDictLearn orig)).model = orig.model ∧
    (loadStateDictLearn fresh (stateDictLearn orig)).targetModel =
      orig.targetModel ∧
    (loadStateDictLearn fresh (stateDictLearn orig)).actorOptimizer =
      orig.actorOptimizer ∧
    (loadStateDictLearn fresh (stateDictLearn orig)).criticOptimizer =
      orig.criticOptimizer ∧
    step (stateDictLearn (loadStateDictLearn fresh (stateDictLearn orig))) =
      step (stateDictLearn orig) :=
  ⟨rfl, rfl, rfl, rfl, rfl, rfl⟩

/-- Claim C9: every successful learning step returns a metrics dictionary
with exactly the eight keys, in this order, each bound to a scalar value. -/
theorem C9_metric_keys (cfg : LearnCfg) (d : LearnData) (out : StepOut)
    (h : (forwardLearn cfg d).1 = Except.ok out) :
    out.metrics.map Prod.fst =
      ["cur_actor_lr", "cur_critic_lr", "actor_loss", "bc_loss",
       "entropy_loss", "total_actor_loss", "critic_loss", "kl_div"] := by
  by_cases hc : cfg.continuousActionSpace
  · simp only [forwardLearn, hc, if_true] at h
    cases h
    rfl
  · simp [forwardLearn, hc] at h

/-- Witness for claim C9: the concrete continuous step returns exactly the
eight keys. -/
theorem C9_metric_keys_witness :
    (contStep wCfg wData).metrics.map Prod.fst =
      ["cur_actor_lr", "cur_critic_lr", "actor_loss", "bc_loss",
       "entropy_loss", "total_actor_loss", "critic_loss", "kl_div"] :=
  C9_metric_keys wCfg wData (contStep wCfg wData) rfl

/-- Claim C10: for a non-empty batch (`T ≥ 1`, `B ≥ 1`) with boolean done
flags, the total valid-step count — the sum of the shifted mask, whose first
row is all ones — is at least `B` and strictly positive, so the divisions by
`total_valid` in the losses and metrics never divide by zero. -/
theorem C10_total_valid_positive (cfg : LearnCfg) (d : LearnData)
    (hT : 1 ≤ cfg.unrollLen) (hB : 1 ≤ d.B)
    (hdone : ∀ t b, d.done t b = 0 ∨ d.done t b = 1) :
    (d.B : ℚ) ≤ contTotalValid cfg d ∧ 0 < contTotalValid cfg d := by
  have hmask : ∀ t b, 0 ≤ contLossMask d t b := by
    intro t b
    by_cases h0 : t = 0
    · simp [contLossMask, shiftMask, h0]
    · rcases hdone (t - 1) b with h | h <;>
        simp [contLossMask, shiftMask, preMask, h0, h]
  have hrow : ∀ t, 0 ≤ ∑ b ∈ Finset.range d.B, contLossMask d t b :=
    fun t => Finset.sum_nonneg fun b _ => hmask t b
  have h0 : (∑ b ∈ Finset.range d.B, contLossMask d 0 b) = (d.B : ℚ) := by
    have hone : ∀ b, contLossMask d 0 b = 1 := fun b => by
      simp [contLossMask, shiftMask]
    simp [hone]
  have hB' : (d.B : ℚ) ≤ contTotalValid cfg d := by
    rw [contTotalValid, totalValidOf, ← h0]
    exact Finset.single_le_sum (fun i _ => hrow i)
      (Finset.mem_range.mpr (by omega))
  refine ⟨hB', lt_of_lt_of_le ?_ hB'⟩
  exact_mod_cast hB

/-- Witness for claim C10 at the concrete one-step batch. -/
theorem C10_total_valid_positive_witness :
    ((wData.B : ℚ) ≤ contTotalValid wCfg wData ∧
      0 < contTotalValid wCfg wData) :=
  C10_total_valid_positive wCfg wData (by norm_num [wCfg])
    (by norm_num [wData]) (fun t b => Or.inl rfl)

end Acer
